import Mathlib

/-!
Verification of the ledger normalization and classification engine of the
BAS GST working-papers app (`src/app.py`).

Amounts are modelled as rationals (`ℚ`); `round(x, 2)` (Python / NumPy
half-even rounding) is `round2`.  Strings are modelled with Lean `String`;
Python's `str.lower()` is modelled by ASCII lowercasing (all keyword and
description comparisons in the program are ASCII), and Python's substring
test `pat in s` by `strContains`.  A cell of an uploaded CSV whose value
cannot be parsed is represented explicitly: an unparseable date is the
result of `pd.to_datetime(..., errors="coerce")`, i.e. null (`Option.none`),
and a raw amount cell is an `AmountCell` which is either a number, an empty
cell (read as NaN), or non-numeric text.
-/

namespace BAS

/-- Round a rational to the nearest integer, ties to even (the rounding used
by Python's `round` and NumPy/pandas `.round`). -/
def roundHalfEven (x : ℚ) : ℤ :=
  if x - (⌊x⌋ : ℚ) < 1/2 then ⌊x⌋
  else if 1/2 < x - (⌊x⌋ : ℚ) then ⌊x⌋ + 1
  else if ⌊x⌋ % 2 = 0 then ⌊x⌋ else ⌊x⌋ + 1

/-- Python `round(x, 2)`: round to two decimal places, half to even. -/
def round2 (x : ℚ) : ℚ := (roundHalfEven (x * 100) : ℚ) / 100

/-- ASCII lowercasing of one character (model of `str.lower()` per character). -/
def asciiLower (c : Char) : Char :=
  if 65 ≤ c.toNat ∧ c.toNat ≤ 90 then Char.ofNat (c.toNat + 32) else c

/-- Model of Python `s.lower()` for the ASCII strings used by the program. -/
def pyLowerStr (s : String) : String := String.mk (s.toList.map asciiLower)

/-- Model of Python's substring test `pat in s`. -/
def strContains (s pat : String) : Bool :=
  s.toList.tails.any (fun t => pat.toList.isPrefixOf t)

/-- Lexicographic comparison of character lists by code point. -/
def charsLe : List Char → List Char → Bool
  | [], _ => true
  | _ :: _, [] => false
  | a :: as, b :: bs =>
    if a.toNat < b.toNat then true
    else if b.toNat < a.toNat then false
    else charsLe as bs

/-- Lexicographic order on strings (the order pandas uses to sort string
mode results). -/
def strLe (a b : String) : Bool := charsLe a.toList b.toList

/-- A calendar date, as produced by `pd.to_datetime`. -/
structure Date where
  year : Nat
  month : Nat
  day : Nat
  deriving DecidableEq

/-- A raw CSV amount cell: a numeric literal, an empty cell (NaN after
`read_csv`), or non-numeric text. -/
inductive AmountCell where
  | num (q : ℚ)
  | blank
  | text (s : String)
  deriving DecidableEq

def AmountCell.isText : AmountCell → Bool
  | .text _ => true
  | _ => false

/-- Model of `pd.to_numeric(col, errors="coerce").fillna(0)`: unparseable
values and empty cells become 0. -/
def coerceAmount : AmountCell → ℚ
  | .num q => q
  | _ => 0

/-- One canonical ledger row (app.py line 86-92 selects exactly these five
columns from each adapter's output). -/
structure Record where
  date : Option Date
  account : String
  description : Option String
  direction : String
  amount : ℚ
  deriving DecidableEq

/-- One raw row of the headerless Commonwealth CSV: positional columns
Date, Amount, Description, Balance (app.py line 70).  The date is shown
after `pd.to_datetime(..., errors="coerce", dayfirst=True)`, so an
unparseable date is `none`. -/
structure CbaRow where
  date : Option Date
  amount : AmountCell
  description : Option String
  balance : AmountCell
  deriving DecidableEq

/-- Commonwealth adapter, app.py lines 69-74.  Line 73 computes Direction by
evaluating `x > 0` on the *raw* Amount column, before the numeric coercion
on line 74.  When any cell of that column is non-numeric text, `read_csv`
leaves the whole column as Python strings, and comparing a string with `0`
raises `TypeError`, aborting the run; comparisons of NaN (empty cell) with
`0` are `False`, giving "OUT".  Line 74 then coerces the amounts with
`errors="coerce"` and `fillna(0)`. -/
def cbaAdapter (rows : List CbaRow) : Except String (List Record) :=
  if rows.any (fun r => r.amount.isText) then
    Except.error "TypeError: not supported between instances of str and int"
  else
    Except.ok (rows.map (fun r =>
      { date := r.date
        account := "Commonwealth"
        description := r.description
        direction :=
          match r.amount with
          | AmountCell.num q => if q > 0 then "IN" else "OUT"
          | _ => "OUT"
        amount := coerceAmount r.amount }))

/-- One raw row of the headered Wise CSV (the columns the adapter reads). -/
structure WiseRow where
  finishedOn : Option Date
  sourceName : Option String
  direction : String
  targetAmount : AmountCell
  deriving DecidableEq

/-- The Wise CSV: which of the expected named columns are present, plus the
row data. -/
structure WiseTable where
  hasFinishedOn : Bool
  hasSourceName : Bool
  hasDirection : Bool
  hasTargetAmount : Bool
  rows : List WiseRow
  deriving DecidableEq

/-- Wise adapter, app.py lines 77-84.  Accessing a missing column raises
`KeyError` (in the order the columns are read: line 78, 80, 81, 82); the
Direction value is passed through verbatim and the amount is coerced with
`errors="coerce"` / `fillna(0)`. -/
def wiseAdapter (t : WiseTable) : Except String (List Record) :=
  if t.hasFinishedOn = false then Except.error "KeyError: Finished on"
  else if t.hasSourceName = false then Except.error "KeyError: Source name"
  else if t.hasDirection = false then Except.error "KeyError: Direction"
  else if t.hasTargetAmount = false then
    Except.error "KeyError: Target amount (after fees)"
  else
    Except.ok (t.rows.map (fun r =>
      { date := r.finishedOn
        account := "Wise"
        description := r.sourceName
        direction := r.direction
        amount := coerceAmount r.targetAmount }))

/-- NaN-aware `<=` used on `ledger["Date"].dt.month`: the month of a null
date is NaN, and every comparison against NaN is `False`. -/
def nanLe (m : Option Nat) (k : Nat) : Bool :=
  match m with
  | some v => v ≤ k
  | none => false

/-- app.py lines 97-104. -/
def month_to_quarter (m : Option Nat) : String :=
  if nanLe m 3 then "Q1"
  else if nanLe m 6 then "Q2"
  else if nanLe m 9 then "Q3"
  else "Q4"

/-- app.py line 106: `ledger["Date"].dt.month.apply(month_to_quarter)`. -/
def quarterColumn (l : List Record) : List String :=
  l.map (fun r => month_to_quarter (r.date.map Date.month))

/-- Number of occurrences of `x` in `l`. -/
def qcount (l : List String) (x : String) : Nat :=
  (l.filter (fun y => y == x)).length

/-- The largest occurrence count over the values of `l`. -/
def maxCount (l : List String) : Nat :=
  ((l.dedup).map (qcount l)).foldr max 0

/-- The distinct values of `l` attaining the largest count. -/
def modalValues (l : List String) : List String :=
  (l.dedup).filter (fun x => qcount l x == maxCount l)

/-- Model of `Series.mode()`: the modal values, returned in sorted order. -/
def pandasMode (l : List String) : List String :=
  List.insertionSort (fun a b => strLe a b = true) (modalValues l)

/-- app.py line 107: `ledger["Quarter"].mode().iloc[0]`; `none` when the
series is empty (where `.iloc[0]` would raise). -/
def bas_quarter (l : List String) : Option String := (pandasMode l).head?

/-- The keyword set of app.py line 122. -/
def feeKeywords : List String := ["fee", "fx", "asic", "ato", "bpay", "tax"]

/-- Python `str(x)` on an optional description: a null (NaN) description
prints as "nan". -/
def pyStr (d : Option String) : String :=
  match d with
  | some s => s
  | none => "nan"

/-- app.py line 114: `str(row["Description"]).lower()`. -/
def pyLower (d : Option String) : String := pyLowerStr (pyStr d)

/-- app.py lines 113-125: rule-chain classification, first match wins. -/
def classify (direction : String) (description : Option String) :
    String × String × String :=
  let desc := pyLower description
  if direction = "IN" then ("Income", "NO", "Income received")
  else if strContains desc "transfer" then ("Transfer", "NO", "Internal transfer")
  else if feeKeywords.any (fun k => strContains desc k) then
    ("Fee", "NO", "GST-free fee or government charge")
  else ("Expense", "YES", "Australian business expense – GST assumed")

/-- One row of the classified ledger: the canonical record plus the columns
added on app.py lines 128-135. -/
structure Classified where
  row : Record
  txType : String
  gstClaimable : String
  reason : String
  gross : ℚ
  gstAmount : ℚ
  net : ℚ
  comment : String
  deriving DecidableEq

/-- app.py lines 128-135: the classification triple is spread over three
columns; `Gross Amount = Amount.abs().round(2)`, `GST Amount = 0.0`,
`Net (ex GST) = Gross Amount`, `Comment = ""`. -/
def toClassified (r : Record) : Classified :=
  { row := r
    txType := (classify r.direction r.description).1
    gstClaimable := (classify r.direction r.description).2.1
    reason := (classify r.direction r.description).2.2
    gross := round2 |r.amount|
    gstAmount := 0
    net := round2 |r.amount|
    comment := "" }

/-- One user edit coming back from the review table: per the editor
configuration (app.py lines 142-152) the user can change the GST Claimable
flag and the Comment text; `none` means the field was left as is. -/
structure Edit where
  claimable : Option String
  comment : Option String
  deriving DecidableEq

/-- Applying one edit to one classified row.  The derived columns
(`gross`, `gstAmount`, `net`) and the classification columns are not
recomputed: `edited_df` is used downstream exactly as the editor returns
it. -/
def applyEdit (c : Classified) (e : Edit) : Classified :=
  { c with
    gstClaimable := e.claimable.getD c.gstClaimable
    comment := e.comment.getD c.comment }

/-- Positional application of the review edits (`num_rows="fixed"`: the
editor returns the same rows in the same order). -/
def applyEdits : List Classified → List Edit → List Classified
  | [], _ => []
  | cs, [] => cs
  | c :: cs, e :: es => applyEdit c e :: applyEdits cs es

/-- app.py lines 157-159. -/
def income_gross (l : List Classified) : ℚ :=
  ((l.filter (fun c => c.txType == "Income")).map Classified.gross).sum

/-- app.py line 161: `1A`, with no rounding. -/
def gst_on_sales (l : List Classified) : ℚ := income_gross l / 11

/-- app.py lines 162-164. -/
def gst_claimable_gross (l : List Classified) : ℚ :=
  ((l.filter (fun c => c.gstClaimable == "YES")).map Classified.gross).sum

/-- app.py line 165: `1B`, computed from the claimable gross total. -/
def gst_on_purchases (l : List Classified) : ℚ := gst_claimable_gross l / 11

/-- app.py line 166. -/
def net_gst (l : List Classified) : ℚ := gst_on_sales l - gst_on_purchases l

/-- The per-row GST formula written into the exported sheet (app.py line
218): `=IF(flag="YES", gross/11, 0)`. -/
def excelRowTax (flag : String) (gross : ℚ) : ℚ :=
  if flag == "YES" then gross / 11 else 0

/-- The per-row net formula written into the exported sheet (app.py line
219): `=gross-tax`. -/
def excelRowNet (gross tax : ℚ) : ℚ := gross - tax

/-- Everything the run produces: the reviewed ledger, the detected quarter,
and the five summary figures shown on screen (and handed to the export). -/
structure Output where
  ledger : List Classified
  quarter : String
  g1 : ℚ
  oneA : ℚ
  claimableGross : ℚ
  oneB : ℚ
  netPayable : ℚ
  deriving DecidableEq

/-- The whole batch run in script order (app.py top to bottom): adapters,
merge, quarter detection, classification and derived columns, review edits,
summary.  Any uncaught exception (`TypeError` from the Commonwealth
adapter, `KeyError` from the Wise adapter, `IndexError` from `.iloc[0]` on
an empty ledger) aborts the script before any output exists. -/
def pipeline (cbaRows : List CbaRow) (t : WiseTable) (edits : List Edit) :
    Except String Output :=
  match cbaAdapter cbaRows with
  | Except.error e => Except.error e
  | Except.ok a =>
    match wiseAdapter t with
    | Except.error e => Except.error e
    | Except.ok b =>
      let ledger := a ++ b
      match bas_quarter (quarterColumn ledger) with
      | none => Except.error "IndexError: single positional indexer is out-of-bounds"
      | some q =>
        let edited := applyEdits (ledger.map toClassified) edits
        Except.ok
          { ledger := edited
            quarter := q
            g1 := income_gross edited
            oneA := gst_on_sales edited
            claimableGross := gst_claimable_gross edited
            oneB := gst_on_purchases edited
            netPayable := net_gst edited }

/-- Modelled from the claim's words (spec §4.5): quarter detection in which
records with a null date are excluded from the mode computation.  Used only
to compare the claimed behaviour with the program's. -/
def spec_bas_quarter (l : List Record) : Option String :=
  bas_quarter ((l.filterMap Record.date).map (fun d => month_to_quarter (some d.month)))

/-! Helper lemmas. -/

/-- Evaluation rule for `roundHalfEven` when the value sits in the lower
half of an integer gap. -/
theorem roundHalfEven_eq_of (x : ℚ) (n : ℤ) (h1 : (n : ℚ) ≤ x)
    (h2 : x < (n : ℚ) + 1/2) : roundHalfEven x = n := by
  have hfl : ⌊x⌋ = n := Int.floor_eq_iff.mpr ⟨h1, by linarith⟩
  unfold roundHalfEven
  rw [hfl, if_pos (by linarith)]

/-- Evaluation rule for `round2` when no tie is involved. -/
theorem round2_eq_of (x : ℚ) (n : ℤ) (h1 : (n : ℚ) ≤ x * 100)
    (h2 : x * 100 < (n : ℚ) + 1/2) : round2 x = (n : ℚ) / 100 := by
  unfold round2
  rw [roundHalfEven_eq_of (x * 100) n h1 h2]

theorem charsLe_refl : ∀ as : List Char, charsLe as as = true
  | [] => rfl
  | a :: as => by
    unfold charsLe
    rw [if_neg (Nat.lt_irrefl _), if_neg (Nat.lt_irrefl _)]
    exact charsLe_refl as

theorem strLe_refl (a : String) : strLe a a = true := charsLe_refl _

theorem charsLe_total : ∀ as bs : List Char,
    charsLe as bs = true ∨ charsLe bs as = true
  | [], _ => Or.inl rfl
  | _ :: _, [] => Or.inr rfl
  | a :: as, b :: bs => by
    unfold charsLe
    rcases Nat.lt_trichotomy a.toNat b.toNat with h | h | h
    · left; rw [if_pos h]
    · rw [if_neg (by omega), if_neg (by omega), if_neg (by omega), if_neg (by omega)]
      exact charsLe_total as bs
    · right; rw [if_pos h]

theorem charsLe_trans : ∀ as bs cs : List Char, charsLe as bs = true →
    charsLe bs cs = true → charsLe as cs = true
  | [], _, _, _, _ => rfl
  | _ :: _, [], _, h1, _ => by simp [charsLe] at h1
  | _ :: _, _ :: _, [], _, h2 => by simp [charsLe] at h2
  | a :: as, b :: bs, c :: cs, h1, h2 => by
    unfold charsLe at h1 h2 ⊢
    by_cases hab : a.toNat < b.toNat
    · rw [if_pos hab] at h1
      by_cases hbc : b.toNat < c.toNat
      · rw [if_pos (by omega)]
      · rw [if_neg hbc] at h2
        by_cases hcb : c.toNat < b.toNat
        · rw [if_pos hcb] at h2; exact absurd h2 (by simp)
        · rw [if_pos (by omega)]
    · rw [if_neg hab] at h1
      by_cases hba : b.toNat < a.toNat
      · rw [if_pos hba] at h1; exact absurd h1 (by simp)
      · rw [if_neg hba] at h1
        by_cases hbc : b.toNat < c.toNat
        · rw [if_pos (by omega)]
        · rw [if_neg hbc] at h2
          by_cases hcb : c.toNat < b.toNat
          · rw [if_pos hcb] at h2; exact absurd h2 (by simp)
          · rw [if_neg hcb] at h2
            rw [if_neg (by omega), if_neg (by omega)]
            exact charsLe_trans as bs cs h1 h2

instance : IsTotal String (fun a b => strLe a b = true) :=
  ⟨fun a b => charsLe_total a.toList b.toList⟩

instance : IsTrans String (fun a b => strLe a b = true) :=
  ⟨fun a b c => charsLe_trans a.toList b.toList c.toList⟩

theorem le_foldr_max : ∀ ys : List Nat, ∀ a ∈ ys, a ≤ ys.foldr max 0 := by
  intro ys
  induction ys with
  | nil => intro a h; cases h
  | cons y ys ih =>
    intro a h
    rw [List.foldr_cons]
    rcases List.mem_cons.mp h with rfl | h'
    · exact le_max_left _ _
    · exact le_trans (ih a h') (le_max_right _ _)

theorem qcount_le_maxCount (l : List String) (x : String) (hx : x ∈ l) :
    qcount l x ≤ maxCount l := by
  have hxd : x ∈ l.dedup := List.mem_dedup.mpr hx
  exact le_foldr_max _ _ (List.mem_map_of_mem (qcount l) hxd)

theorem qcount_of_modal (l : List String) (q : String)
    (hq : q ∈ modalValues l) : qcount l q = maxCount l := by
  have h := (List.mem_filter.mp hq).2
  simpa using h

theorem basQuarter_mem_modal (l : List String) (q : String)
    (h : bas_quarter l = some q) : q ∈ modalValues l := by
  unfold bas_quarter pandasMode at h
  cases hs : List.insertionSort (fun a b => strLe a b = true) (modalValues l) with
  | nil => rw [hs] at h; simp at h
  | cons x xs =>
    rw [hs] at h
    have hx : x = q := by simpa using h
    subst hx
    have hmem : x ∈ List.insertionSort (fun a b => strLe a b = true) (modalValues l) := by
      rw [hs]; exact List.mem_cons_self _ _
    exact (List.mem_insertionSort _).mp hmem

theorem basQuarter_min (l : List String) (q : String)
    (h : bas_quarter l = some q) :
    ∀ q' ∈ modalValues l, strLe q q' = true := by
  intro q' hq'
  unfold bas_quarter pandasMode at h
  cases hs : List.insertionSort (fun a b => strLe a b = true) (modalValues l) with
  | nil => rw [hs] at h; simp at h
  | cons x xs =>
    rw [hs] at h
    have hx : x = q := by simpa using h
    subst hx
    have hsort := List.sorted_insertionSort (fun a b => strLe a b = true) (modalValues l)
    rw [hs] at hsort
    have hmem : q' ∈ x :: xs := by
      rw [← hs]; exact (List.mem_insertionSort _).mpr hq'
    rcases List.mem_cons.mp hmem with rfl | hmem'
    · exact strLe_refl _
    · exact List.rel_of_sorted_cons hsort _ hmem'

theorem sum_map_div_eleven : ∀ xs : List ℚ,
    (xs.map (fun x => x / 11)).sum = xs.sum / 11 := by
  intro xs
  induction xs with
  | nil => simp
  | cons a as ih => simp [ih, add_div]

/-! Claim theorems. -/

/-- C4 (counterexample): the claim says records with a null date are
excluded from the quarter-mode computation.  On a batch with two null-dated
records and one January record the program reports Q4 (null months fail
every comparison and fall to the final branch, so each null date counts as
a Q4 vote), while the claimed null-excluding computation reports Q1. -/
theorem c4_counterexample :
    bas_quarter (quarterColumn
      [⟨none, "Commonwealth", some "a", "OUT", -5⟩,
       ⟨none, "Commonwealth", some "b", "OUT", -5⟩,
       ⟨some ⟨2024, 1, 5⟩, "Commonwealth", some "c", "OUT", -5⟩]) = some "Q4"
  ∧ spec_bas_quarter
      [⟨none, "Commonwealth", some "a", "OUT", -5⟩,
       ⟨none, "Commonwealth", some "b", "OUT", -5⟩,
       ⟨some ⟨2024, 1, 5⟩, "Commonwealth", some "c", "OUT", -5⟩] = some "Q1"
  ∧ (some "Q4" : Option String) ≠ some "Q1" := by
  refine ⟨by decide, by decide, by decide⟩

/-- C4 (amended): months 1-3, 4-6, 7-9, 10-12 map to Q1, Q2, Q3, Q4; a
null (unparseable) date maps to Q4 — it is included, not excluded, in the
mode computation — and the reported batch quarter attains the maximal
occurrence count over the full quarter column, null-derived Q4 votes
included. -/
theorem c4_quarter_detection :
    (∀ m : Nat, 1 ≤ m → m ≤ 3 → month_to_quarter (some m) = "Q1")
  ∧ (∀ m : Nat, 4 ≤ m → m ≤ 6 → month_to_quarter (some m) = "Q2")
  ∧ (∀ m : Nat, 7 ≤ m → m ≤ 9 → month_to_quarter (some m) = "Q3")
  ∧ (∀ m : Nat, 10 ≤ m → month_to_quarter (some m) = "Q4")
  ∧ month_to_quarter none = "Q4"
  ∧ (∀ (l : List Record) (q x : String),
      bas_quarter (quarterColumn l) = some q → x ∈ quarterColumn l →
      qcount (quarterColumn l) x ≤ qcount (quarterColumn l) q) := by
  refine ⟨?_, ?_, ?_, ?_, rfl, ?_⟩
  · intro m h1 h2
    simp [month_to_quarter, nanLe, h2]
  · intro m h1 h2
    have h3 : ¬ m ≤ 3 := by omega
    simp [month_to_quarter, nanLe, h2, h3]
  · intro m h1 h2
    have h3 : ¬ m ≤ 3 := by omega
    have h4 : ¬ m ≤ 6 := by omega
    simp [month_to_quarter, nanLe, h2, h3, h4]
  · intro m h1
    have h3 : ¬ m ≤ 3 := by omega
    have h4 : ¬ m ≤ 6 := by omega
    have h5 : ¬ m ≤ 9 := by omega
    simp [month_to_quarter, nanLe, h3, h4, h5]
  · intro l q x hq hx
    calc qcount (quarterColumn l) x ≤ maxCount (quarterColumn l) :=
          qcount_le_maxCount _ _ hx
      _ = qcount (quarterColumn l) q :=
          (qcount_of_modal _ _ (basQuarter_mem_modal _ _ hq)).symm

/-- C4 (witness for the amended theorem): concrete instantiations of each
part, including the mode inequality on the counterexample batch. -/
theorem c4_quarter_detection_witness :
    month_to_quarter (some 2) = "Q1"
  ∧ month_to_quarter (some 5) = "Q2"
  ∧ month_to_quarter (some 8) = "Q3"
  ∧ month_to_quarter (some 11) = "Q4"
  ∧ month_to_quarter none = "Q4"
  ∧ qcount (quarterColumn
      [⟨none, "Commonwealth", some "a", "OUT", -5⟩,
       ⟨none, "Commonwealth", some "b", "OUT", -5⟩,
       ⟨some ⟨2024, 1, 5⟩, "Commonwealth", some "c", "OUT", -5⟩]) "Q1"
      ≤ qcount (quarterColumn
      [⟨none, "Commonwealth", some "a", "OUT", -5⟩,
       ⟨none, "Commonwealth", some "b", "OUT", -5⟩,
       ⟨some ⟨2024, 1, 5⟩, "Commonwealth", some "c", "OUT", -5⟩]) "Q4" :=
  ⟨c4_quarter_detection.1 2 (by decide) (by decide),
   c4_quarter_detection.2.1 5 (by decide) (by decide),
   c4_quarter_detection.2.2.1 8 (by decide) (by decide),
   c4_quarter_detection.2.2.2.1 11 (by decide),
   c4_quarter_detection.2.2.2.2.1,
   c4_quarter_detection.2.2.2.2.2 _ "Q4" "Q1" (by decide) (by decide)⟩

/-- C6: `classify` is a total deterministic function of (direction,
description), evaluating its four rules in order with first match winning:
direction IN gives Income regardless of the description (in particular when
the description contains "fee"); otherwise a description containing
"transfer" gives Transfer before the fee-keyword rule is consulted; then
the fee-keyword rule; every remaining record is a claimable Expense. -/
theorem c6_classify_rules (dir : String) (desc : Option String) :
    (dir = "IN" → classify dir desc = ("Income", "NO", "Income received"))
  ∧ classify "IN" (some "Annual account fee") = ("Income", "NO", "Income received")
  ∧ (dir ≠ "IN" → strContains (pyLower desc) "transfer" = true →
      classify dir desc = ("Transfer", "NO", "Internal transfer"))
  ∧ (dir ≠ "IN" → strContains (pyLower desc) "transfer" = false →
      feeKeywords.any (fun k => strContains (pyLower desc) k) = true →
      classify dir desc = ("Fee", "NO", "GST-free fee or government charge"))
  ∧ (dir ≠ "IN" → strContains (pyLower desc) "transfer" = false →
      feeKeywords.any (fun k => strContains (pyLower desc) k) = false →
      classify dir desc = ("Expense", "YES", "Australian business expense – GST assumed")) := by
  refine ⟨?_, by decide, ?_, ?_, ?_⟩
  · intro h; simp [classify, h]
  · intro h1 h2; simp [classify, h1, h2]
  · intro h1 h2 h3; simp [classify, h1, h2, h3]
  · intro h1 h2 h3; simp [classify, h1, h2, h3]

/-- C6 (witness): the three spec scenarios — an OUT transfer, the
"ATO BPAY Tax Payment" fee, and the default expense — via the rule
implications at concrete inputs. -/
theorem c6_classify_rules_witness :
    classify "OUT" (some "Transfer to Savings") = ("Transfer", "NO", "Internal transfer")
  ∧ classify "OUT" (some "ATO BPAY Tax Payment") = ("Fee", "NO", "GST-free fee or government charge")
  ∧ classify "OUT" (some "Office Supplies Pty Ltd") = ("Expense", "YES", "Australian business expense – GST assumed") :=
  ⟨(c6_classify_rules "OUT" (some "Transfer to Savings")).2.2.1 (by decide) (by decide),
   (c6_classify_rules "OUT" (some "ATO BPAY Tax Payment")).2.2.2.1 (by decide) (by decide) (by decide),
   (c6_classify_rules "OUT" (some "Office Supplies Pty Ltd")).2.2.2.2 (by decide) (by decide) (by decide)⟩

/-- C9: whenever `.mode().iloc[0]` returns a quarter, that quarter is a
modal value and is lexicographically least among all modal values (pandas
returns mode results sorted, and the first is taken) — in particular ties
are broken towards the earliest quarter label, not the first-encountered
one. -/
theorem c9_mode_tiebreak (l : List String) (q : String)
    (h : bas_quarter l = some q) :
    q ∈ modalValues l ∧ ∀ q' ∈ modalValues l, strLe q q' = true :=
  ⟨basQuarter_mem_modal l q h, basQuarter_min l q h⟩

/-- C9 (witness): on the tied batch ["Q3", "Q1"] the reported quarter is
"Q1", the lexicographically smaller tied label, although "Q3" was
encountered first. -/
theorem c9_mode_tiebreak_witness :
    bas_quarter ["Q3", "Q1"] = some "Q1"
  ∧ "Q1" ∈ modalValues ["Q3", "Q1"]
  ∧ "Q3" ∈ modalValues ["Q3", "Q1"]
  ∧ strLe "Q1" "Q3" = true :=
  ⟨by decide,
   (c9_mode_tiebreak ["Q3", "Q1"] "Q1" (by decide)).1,
   by decide,
   (c9_mode_tiebreak ["Q3", "Q1"] "Q1" (by decide)).2 "Q3" (by decide)⟩

/-- C10: `classify` never errors on a missing description: the null
description prints as "nan", which contains neither "transfer" nor any fee
keyword, so a record with direction other than IN falls through to the
claimable Expense default. -/
theorem c10_null_description (dir : String) (h : dir ≠ "IN") :
    pyLower none = "nan"
  ∧ strContains (pyLower none) "transfer" = false
  ∧ feeKeywords.any (fun k => strContains (pyLower none) k) = false
  ∧ classify dir none = ("Expense", "YES", "Australian business expense – GST assumed") := by
  have h2 : strContains (pyLower none) "transfer" = false := by decide
  have h3 : feeKeywords.any (fun k => strContains (pyLower none) k) = false := by decide
  exact ⟨by decide, h2, h3, by simp [classify, h, h2, h3]⟩

/-- C10 (witness): a null-description OUT record is a claimable Expense. -/
theorem c10_null_description_witness :
    classify "OUT" none = ("Expense", "YES", "Australian business expense – GST assumed") :=
  (c10_null_description "OUT" (by decide)).2.2.2

/-- A successful Wise adapter run implies every expected column was
present. -/
theorem wiseAdapter_ok_columns (t : WiseTable) (recs : List Record)
    (h : wiseAdapter t = Except.ok recs) :
    t.hasFinishedOn = true ∧ t.hasSourceName = true
      ∧ t.hasDirection = true ∧ t.hasTargetAmount = true := by
  unfold wiseAdapter at h
  cases h1 : t.hasFinishedOn <;> cases h2 : t.hasSourceName <;>
    cases h3 : t.hasDirection <;> cases h4 : t.hasTargetAmount <;>
      simp_all

/-- C5 (code bug evidence): a Commonwealth row whose Amount cell is
non-numeric text aborts the whole batch with a TypeError (line 73 compares
the raw cell with 0 before the line-74 coercion), instead of being
normalized to 0 and kept; the same unparseable amount in a Wise row is
coerced to 0 and the row is kept, and an empty Commonwealth amount cell is
also kept with amount 0 — which is the claimed (and, per line 74,
intended) behaviour. -/
theorem c5_unparseable_amount_aborts :
    cbaAdapter [⟨none, AmountCell.text "abc", some "Coffee", AmountCell.blank⟩]
      = Except.error "TypeError: not supported between instances of str and int"
  ∧ wiseAdapter ⟨true, true, true, true, [⟨none, some "Acme Pty Ltd", "OUT", AmountCell.text "abc"⟩]⟩
      = Except.ok [⟨none, "Wise", some "Acme Pty Ltd", "OUT", 0⟩]
  ∧ cbaAdapter [⟨none, AmountCell.blank, some "No amount", AmountCell.blank⟩]
      = Except.ok [⟨none, "Commonwealth", some "No amount", "OUT", 0⟩] :=
  ⟨rfl, rfl, rfl⟩

/-- C7: if the Wise table is missing any of its expected columns, the run
stops with an error before any output (ledger, summary or export input)
exists, for every possible Commonwealth input and edit set. -/
theorem c7_missing_column_fatal (cbaRows : List CbaRow) (t : WiseTable)
    (edits : List Edit)
    (h : t.hasFinishedOn = false ∨ t.hasSourceName = false
      ∨ t.hasDirection = false ∨ t.hasTargetAmount = false) :
    ∀ out : Output, pipeline cbaRows t edits ≠ Except.ok out := by
  intro out hout
  cases hca : cbaAdapter cbaRows with
  | error e => simp [pipeline, hca] at hout
  | ok a =>
    cases hw : wiseAdapter t with
    | error e => simp [pipeline, hca, hw] at hout
    | ok b =>
      obtain ⟨h1, h2, h3, h4⟩ := wiseAdapter_ok_columns t b hw
      rcases h with h' | h' | h' | h' <;> simp_all

/-- C7 (witness): a Wise table without the "Finished on" column produces no
output. -/
theorem c7_missing_column_fatal_witness :
    pipeline [] ⟨false, true, true, true, []⟩ []
      ≠ Except.ok ⟨[], "Q1", 0, 0, 0, 0, 0⟩ :=
  c7_missing_column_fatal [] ⟨false, true, true, true, []⟩ [] (Or.inl rfl)
    ⟨[], "Q1", 0, 0, 0, 0, 0⟩

/-- C8: the on-screen Net GST payable is exactly (income gross total minus
claimable gross total) / 11 — no per-record or per-figure rounding occurs
anywhere in the summary computation. -/
theorem c8_net_gst_exact (l : List Classified) :
    net_gst l = (income_gross l - gst_claimable_gross l) / 11 := by
  unfold net_gst gst_on_sales gst_on_purchases
  rw [sub_div]

theorem round2_at_110 : round2 (110 : ℚ) = 110 := by
  rw [round2_eq_of 110 11000 (by norm_num) (by norm_num)]
  norm_num

theorem round2_at_100 : round2 (100 : ℚ) = 100 := by
  rw [round2_eq_of 100 10000 (by norm_num) (by norm_num)]
  norm_num

theorem round2_at_110_div_11 : round2 ((110 : ℚ) / 11) = 10 := by
  rw [round2_eq_of ((110 : ℚ) / 11) 1000 (by norm_num) (by norm_num)]
  norm_num

theorem round2_at_100_div_11 : round2 ((100 : ℚ) / 11) = 909 / 100 := by
  rw [round2_eq_of ((100 : ℚ) / 11) 909 (by norm_num) (by norm_num)]
  norm_num

/-- C1 (counterexample): the Table A scenario row.  The adapter produces
the expected canonical record, but its classified record carries
`GST Amount = 0` and `Net = 110` (lines 133-134 set the tax column to a
constant 0 and the net column to the gross column), not the claimed
tax = round(110/11, 2) = 10 and net = 100. -/
theorem c1_counterexample :
    cbaAdapter [⟨some ⟨2024, 1, 5⟩, AmountCell.num (-110), some "Office Supplies Pty Ltd", AmountCell.num 5000⟩]
      = Except.ok [⟨some ⟨2024, 1, 5⟩, "Commonwealth", some "Office Supplies Pty Ltd", "OUT", -110⟩]
  ∧ toClassified ⟨some ⟨2024, 1, 5⟩, "Commonwealth", some "Office Supplies Pty Ltd", "OUT", -110⟩
      = ⟨⟨some ⟨2024, 1, 5⟩, "Commonwealth", some "Office Supplies Pty Ltd", "OUT", -110⟩,
         "Expense", "YES", "Australian business expense – GST assumed", 110, 0, 110, ""⟩
  ∧ round2 ((110 : ℚ) / 11) = 10
  ∧ (0 : ℚ) ≠ 10
  ∧ (110 : ℚ) ≠ 100 := by
  have hc : classify "OUT" (some "Office Supplies Pty Ltd")
      = ("Expense", "YES", "Australian business expense – GST assumed") := by decide
  refine ⟨rfl, ?_, round2_at_110_div_11, by norm_num, by norm_num⟩
  simp [toClassified, hc, round2_at_110]

/-- C1 (amended): every classified record is initialized with
`gross = round(|amount|, 2)`, `tax = 0` and `net = gross`, regardless of
the claimable flag; the claimed tax rule `IF(claimable, gross/11, 0)` is
realized only by the per-row formulas of the Excel export, under which the
Table A row (gross 110, claimable) yields tax 10 and net 100. -/
theorem c1_derived_fields :
    (∀ r : Record, (toClassified r).gross = round2 |r.amount|
      ∧ (toClassified r).gstAmount = 0
      ∧ (toClassified r).net = (toClassified r).gross)
  ∧ excelRowTax "YES" 110 = 10
  ∧ excelRowNet 110 (excelRowTax "YES" 110) = 100 := by
  refine ⟨fun r => ⟨rfl, rfl, rfl⟩, ?_, ?_⟩
  · norm_num [excelRowTax]
  · norm_num [excelRowTax, excelRowNet]

/-- C2 (counterexample): a Fee record (claimable NO, gross 110) overridden
to claimable YES keeps `tax = 0` and `net = 110` — the derived fields are
never recomputed from the overridden flag, while the claim requires
tax = round(110/11, 2) = 10 and net = 100 for an overridden-to-claimable
record. -/
theorem c2_counterexample :
    (applyEdit (toClassified ⟨none, "Commonwealth", some "Monthly account fee", "OUT", -110⟩) ⟨some "YES", none⟩).gstClaimable = "YES"
  ∧ (applyEdit (toClassified ⟨none, "Commonwealth", some "Monthly account fee", "OUT", -110⟩) ⟨some "YES", none⟩).gross = 110
  ∧ (applyEdit (toClassified ⟨none, "Commonwealth", some "Monthly account fee", "OUT", -110⟩) ⟨some "YES", none⟩).gstAmount = 0
  ∧ (applyEdit (toClassified ⟨none, "Commonwealth", some "Monthly account fee", "OUT", -110⟩) ⟨some "YES", none⟩).net = 110
  ∧ round2 ((110 : ℚ) / 11) = 10
  ∧ (applyEdit (toClassified ⟨none, "Commonwealth", some "Monthly account fee", "OUT", -110⟩) ⟨some "YES", none⟩).gstAmount
      ≠ round2 ((110 : ℚ) / 11) := by
  refine ⟨rfl, ?_, rfl, ?_, round2_at_110_div_11, ?_⟩
  · simp [applyEdit, toClassified, round2_at_110]
  · simp [applyEdit, toClassified, round2_at_110]
  · rw [round2_at_110_div_11]
    simp [applyEdit, toClassified]

/-- C2 (amended): after any review edit the derived columns keep their
initialized values — `tax` stays 0 and `net` stays equal to the original
gross — whatever the overridden flag says; category and rationale are
unchanged by the edit.  In particular an Expense record overridden to
claimable NO shows tax 0 and net = gross (agreeing with the claimed rule
only because those are the constants every record carries). -/
theorem c2_override_fields (r : Record) (e : Edit) :
    ((applyEdit (toClassified r) e).gstAmount = 0
      ∧ (applyEdit (toClassified r) e).net = (toClassified r).gross
      ∧ (applyEdit (toClassified r) e).txType = (toClassified r).txType
      ∧ (applyEdit (toClassified r) e).reason = (toClassified r).reason)
  ∧ ((applyEdit (toClassified ⟨none, "Commonwealth", some "Office Supplies Pty Ltd", "OUT", -110⟩) ⟨some "NO", none⟩).gstClaimable = "NO"
      ∧ (applyEdit (toClassified ⟨none, "Commonwealth", some "Office Supplies Pty Ltd", "OUT", -110⟩) ⟨some "NO", none⟩).txType = "Expense"
      ∧ (applyEdit (toClassified ⟨none, "Commonwealth", some "Office Supplies Pty Ltd", "OUT", -110⟩) ⟨some "NO", none⟩).gstAmount = 0
      ∧ (applyEdit (toClassified ⟨none, "Commonwealth", some "Office Supplies Pty Ltd", "OUT", -110⟩) ⟨some "NO", none⟩).net
          = (applyEdit (toClassified ⟨none, "Commonwealth", some "Office Supplies Pty Ltd", "OUT", -110⟩) ⟨some "NO", none⟩).gross) := by
  have hc : (classify "OUT" (some "Office Supplies Pty Ltd")).1 = "Expense" := by decide
  exact ⟨⟨rfl, rfl, rfl, rfl⟩, ⟨rfl, by simp [applyEdit, toClassified, hc], rfl, rfl⟩⟩

/-- C3 (counterexample): on a batch with one Income record (gross 100) and
one claimable Expense record (gross 110), the program computes
1A = 100/11 (unrounded, while the claim requires round(G1/11, 2) = 9.09)
and 1B = 110/11 = 10 from the claimable gross total (while the claim's
"sum of tax_amount over claimable records" is 0, every stored tax being
0). -/
theorem c3_counterexample :
    gst_on_sales [toClassified ⟨none, "Commonwealth", some "Client Payment", "IN", 100⟩,
                  toClassified ⟨none, "Commonwealth", some "Office Supplies Pty Ltd", "OUT", -110⟩] = 100 / 11
  ∧ round2 ((100 : ℚ) / 11) = 909 / 100
  ∧ (100 : ℚ) / 11 ≠ 909 / 100
  ∧ gst_on_purchases [toClassified ⟨none, "Commonwealth", some "Client Payment", "IN", 100⟩,
                      toClassified ⟨none, "Commonwealth", some "Office Supplies Pty Ltd", "OUT", -110⟩] = 10
  ∧ (([toClassified ⟨none, "Commonwealth", some "Client Payment", "IN", 100⟩,
       toClassified ⟨none, "Commonwealth", some "Office Supplies Pty Ltd", "OUT", -110⟩].filter
        (fun c => c.gstClaimable == "YES")).map Classified.gstAmount).sum = 0
  ∧ (10 : ℚ) ≠ 0 := by
  have e1 : toClassified ⟨none, "Commonwealth", some "Client Payment", "IN", 100⟩
      = ⟨⟨none, "Commonwealth", some "Client Payment", "IN", 100⟩,
         "Income", "NO", "Income received", 100, 0, 100, ""⟩ := by
    have hc : classify "IN" (some "Client Payment") = ("Income", "NO", "Income received") := by decide
    simp [toClassified, hc, round2_at_100]
  have e2 : toClassified ⟨none, "Commonwealth", some "Office Supplies Pty Ltd", "OUT", -110⟩
      = ⟨⟨none, "Commonwealth", some "Office Supplies Pty Ltd", "OUT", -110⟩,
         "Expense", "YES", "Australian business expense – GST assumed", 110, 0, 110, ""⟩ := by
    have hc : classify "OUT" (some "Office Supplies Pty Ltd")
        = ("Expense", "YES", "Australian business expense – GST assumed") := by decide
    simp [toClassified, hc, round2_at_110]
  rw [e1, e2]
  refine ⟨?_, round2_at_100_div_11, by norm_num, ?_, ?_, by norm_num⟩
  · simp [gst_on_sales, income_gross, List.filter]
  · simp [gst_on_purchases, gst_claimable_gross, List.filter]
    norm_num
  · simp [List.filter]

/-- C3 (amended): 1A = G1/11 exactly (no rounding); 1B equals the sum over
claimable records of gross/11 — equivalently the claimable gross total
divided by 11 — not the sum of the stored `tax_amount` column; and
Net payable = 1A − 1B, all recomputed from whatever record set is passed
in. -/
theorem c3_summary_identities (l : List Classified) :
    gst_on_sales l = income_gross l / 11
  ∧ gst_on_purchases l
      = ((l.filter (fun c => c.gstClaimable == "YES")).map (fun c => c.gross / 11)).sum
  ∧ net_gst l = gst_on_sales l - gst_on_purchases l := by
  refine ⟨rfl, ?_, rfl⟩
  have h : ((l.filter (fun c => c.gstClaimable == "YES")).map (fun c => c.gross / 11))
      = ((l.filter (fun c => c.gstClaimable == "YES")).map Classified.gross).map
          (fun x => x / 11) := by
    rw [List.map_map]
    rfl
  rw [h, sum_map_div_eleven]
  rfl

end BAS
